import Mathlib

/-!
Shallow embedding of the query-transformation and batch-extraction engine of
`src/processors/query_processor.py` and `src/processors/data_processor.py`.

Python strings are modelled as `String` / `List Char`.  The regular expressions
the source applies are each embedded as a specialized, executable matching
function whose behaviour (case-insensitive literals, `\s`, `\w`, greedy and
lazy repetition, leftmost non-overlapping scanning) follows Python's `re`
semantics for that concrete pattern.  Database connections, the `datetime`
library and the GCS/CSV collaborators are modelled as explicit oracles or
parameters, as the spec treats them as external collaborators.
-/

/-- Python `\s` character class (the ASCII whitespace characters, which are the
only ones the embedded SQL text can contain). -/
def isPySpace (c : Char) : Bool :=
  c = ' ' || c = '\t' || c = '\n' || c = '\r' || c = '\x0b' || c = '\x0c'

/-- Python `\w` character class restricted to ASCII: letters, digits, underscore. -/
def isWordChar (c : Char) : Bool :=
  ('a' ≤ c && c ≤ 'z') || ('A' ≤ c && c ≤ 'Z') || ('0' ≤ c && c ≤ '9') || c = '_'

/-- Case-insensitive character comparison, as used by `re.IGNORECASE` on ASCII. -/
def charIEq (p c : Char) : Bool := p.toLower = c.toLower

/-- Match a literal (case-insensitively) at the head of the input; return the rest. -/
def matchLitCI : List Char → List Char → Option (List Char)
  | [], cs => some cs
  | _ :: _, [] => none
  | p :: ps, c :: cs => if charIEq p c then matchLitCI ps cs else none

/-- Match `\s+` (greedy, maximal run, at least one character); return the rest. -/
def matchWs1 : List Char → Option (List Char)
  | [] => none
  | c :: cs => if isPySpace c then some (cs.dropWhile isPySpace) else none

/-- Match `\s*` (greedy, maximal run); return the rest. -/
def matchWs0 (cs : List Char) : List Char := cs.dropWhile isPySpace

/-- Match `(\w+)` (greedy, maximal run, nonempty); return the captured run and the rest. -/
def matchWord1 : List Char → Option (List Char × List Char)
  | [] => none
  | c :: cs =>
    if isWordChar c then some (c :: cs.takeWhile isWordChar, cs.dropWhile isWordChar)
    else none

/-- Boolean test: `pre` is a prefix of `cs`. -/
def listPrefixB : List Char → List Char → Bool
  | [], _ => true
  | _ :: _, [] => false
  | a :: as, b :: bs => a = b && listPrefixB as bs

/-- Boolean test: `needle` occurs as a contiguous substring of `hay`
(Python's `needle in hay`). -/
def listInB (needle : List Char) : List Char → Bool
  | [] => needle.isEmpty
  | c :: cs => listPrefixB needle (c :: cs) || listInB needle cs

/-- Python's `needle in hay` on strings. -/
def strInB (needle hay : String) : Bool := listInB needle.data hay.data

/-- Python `str.upper()` (ASCII). -/
def pyUpper (s : String) : String := String.mk (s.data.map Char.toUpper)

/-- Python `str.strip()`: drop whitespace from both ends. -/
def pyStrip (s : String) : String :=
  String.mk (((s.data.dropWhile isPySpace).reverse.dropWhile isPySpace).reverse)

/-- Python `str.replace(pat, rep)`: replace every non-overlapping occurrence,
scanning left to right (`pat` nonempty in every use below). -/
def pyReplaceF (pat rep : List Char) : Nat → List Char → List Char
  | 0, cs => cs
  | _ + 1, [] => []
  | f + 1, c :: cs =>
    if listPrefixB pat (c :: cs) then rep ++ pyReplaceF pat rep f ((c :: cs).drop pat.length)
    else c :: pyReplaceF pat rep f cs

/-- Python `s.replace(pat, rep)` on strings. -/
def pyReplace (s pat rep : String) : String :=
  String.mk (pyReplaceF pat.data rep.data s.data.length s.data)

/-- Parenthesized subquery body `({s})`, the wrapping every synthesized form uses. -/
def paren (s : String) : String := "(" ++ s ++ ")"

/-- Match the head pattern `WITH\s+(\w+)\s+AS\s*\(` at the current position
(IGNORECASE); return the captured CTE name and the rest after the `(`.
All components are deterministic: the greedy runs are maximal and each is
followed by a character disjoint from its class. -/
def matchWithHead (cs : List Char) : Option (List Char × List Char) :=
  match matchLitCI ("WITH".data) cs with
  | none => none
  | some r1 =>
    match matchWs1 r1 with
    | none => none
    | some r2 =>
      match matchWord1 r2 with
      | none => none
      | some (name, r3) =>
        match matchWs1 r3 with
        | none => none
        | some r4 =>
          match matchLitCI ("AS".data) r4 with
          | none => none
          | some r5 =>
            match matchWs0 r5 with
            | '(' :: r6 => some (name, r6)
            | _ => none

/-- `re.finditer(r'WITH\s+(\w+)\s+AS\s*\(', sql, I|S)`: scan left to right,
non-overlapping, resuming after each match; collect the captured names. -/
def scanWithHeadsF : Nat → List Char → List (List Char)
  | 0, _ => []
  | _ + 1, [] => []
  | f + 1, c :: cs =>
    match matchWithHead (c :: cs) with
    | some (name, rest) => name :: scanWithHeadsF f rest
    | none => scanWithHeadsF f cs

/-- All matches of the `with_pattern` head regex in the input. -/
def scanWithHeads (cs : List Char) : List (List Char) := scanWithHeadsF cs.length cs

/-- Split at the first `)` (the lazy `(.*?)\)` body): return the body before it
and the rest after it. -/
def splitAtClose : List Char → Option (List Char × List Char)
  | [] => none
  | ')' :: cs => some ([], cs)
  | c :: cs =>
    match splitAtClose cs with
    | some (b, r) => some (c :: b, r)
    | none => none

/-- `re.finditer(r'WITH\s+(\w+)\s+AS\s*\((.*?)\)', sql, I|S)`: each match is a
head followed by the lazily matched body up to the first `)`.  Returns, for
each match, the captured name and the rest of the input after the match (used
by the source to slice out the main query after the last CTE). -/
def scanCtesF : Nat → List Char → List (List Char × List Char)
  | 0, _ => []
  | _ + 1, [] => []
  | f + 1, c :: cs =>
    match matchWithHead (c :: cs) with
    | some (name, afterParen) =>
      match splitAtClose afterParen with
      | some (_, rest) => (name, rest) :: scanCtesF f rest
      | none => scanCtesF f cs
    | none => scanCtesF f cs

/-- All matches of the closed `cte_pattern` regex in the input. -/
def scanCtes (cs : List Char) : List (List Char × List Char) := scanCtesF cs.length cs

/-- Lazy search for `(.*?)\)\s*(SELECT.*)` from the current position: find the
first `)` that is followed (after optional whitespace) by `SELECT`; return the
body before that `)` and the tail starting at `SELECT` (which, with DOTALL,
runs to the end of the input). -/
def findCloseSelectF : Nat → List Char → Option (List Char × List Char)
  | 0, _ => none
  | _ + 1, [] => none
  | f + 1, c :: cs =>
    if c = ')' && (matchLitCI ("SELECT".data) (matchWs0 cs)).isSome then
      some ([], matchWs0 cs)
    else
      match findCloseSelectF f cs with
      | some (b, m) => some (c :: b, m)
      | none => none

/-- `re.search(r'WITH\s+(\w+)\s+AS\s*\((.*?)\)\s*(SELECT.*)', sql, I|S)`:
leftmost start position where the head matches and a valid lazy close
followed by `SELECT` exists.  Returns (name, body, main-query-from-SELECT). -/
def searchSingleCteF : Nat → List Char → Option (List Char × List Char × List Char)
  | 0, _ => none
  | _ + 1, [] => none
  | f + 1, c :: cs =>
    match matchWithHead (c :: cs) with
    | some (name, afterParen) =>
      match findCloseSelectF afterParen.length afterParen with
      | some (b, m) => some (name, b, m)
      | none => searchSingleCteF f cs
    | none => searchSingleCteF f cs

/-- Search the whole input for the single-CTE pattern. -/
def searchSingleCte (cs : List Char) : Option (List Char × List Char × List Char) :=
  searchSingleCteF cs.length cs

/-- All splits of the input at a `)`, in left-to-right order (the candidate
ends of a lazy `(.*?)\)` body, shortest body first). -/
def closeSplitsF : Nat → List Char → List (List Char × List Char)
  | 0, _ => []
  | _ + 1, [] => []
  | f + 1, c :: cs =>
    let tail := (closeSplitsF f cs).map (fun p => (c :: p.1, p.2))
    if c = ')' then ([], cs) :: tail else tail

/-- First `some` in a list of options (backtracking alternatives in priority order). -/
def firstSome {α : Type} : List (Option α) → Option α
  | [] => none
  | some a :: _ => some a
  | none :: rest => firstSome rest

/-- Match the repeated-group head `\s*,\s*(\w+)\s+AS\s*\(` of the looser
multi-CTE pattern at the current position; return the captured name and the
rest after the `(`. -/
def matchRepHead (cs : List Char) : Option (List Char × List Char) :=
  match matchWs0 cs with
  | ',' :: r1 =>
    (match matchWord1 (matchWs0 r1) with
     | some (nm, r3) =>
       (match matchWs1 r3 with
        | some r4 =>
          (match matchLitCI ("AS".data) r4 with
           | some r5 =>
             (match matchWs0 r5 with
              | '(' :: r6 => some (nm, r6)
              | _ => none)
           | none => none)
        | none => none)
     | none => none)
  | _ => none

/-- Match `(?:\s*,\s*(\w+)\s+AS\s*\((.*?)\))*\s*(SELECT.*)` against the input,
with Python's backtracking order: the star is greedy (more repetitions tried
first) and each inner body is lazy (shorter bodies tried first).  Returns the
last repetition's captured name (None when zero repetitions matched) and the
final main query starting at `SELECT`. -/
def tailRepsF : Nat → List Char → Option (Option (List Char) × List Char)
  | 0, _ => none
  | f + 1, rest =>
    let viaRep : Option (Option (List Char) × List Char) :=
      match matchRepHead rest with
      | some (nm, afterParen) =>
        firstSome ((closeSplitsF afterParen.length afterParen).map (fun p =>
          match tailRepsF f p.2 with
          | some (last?, main) => some (some (last?.getD nm), main)
          | none => none))
      | none => none
    match viaRep with
    | some res => some res
    | none =>
      let after := matchWs0 rest
      if (matchLitCI ("SELECT".data) after).isSome then some (none, after) else none

/-- `re.search` of the looser pattern
`WITH\s+(\w+)\s+AS\s*\((.*?)\)(?:\s*,\s*(\w+)\s+AS\s*\((.*?)\))*\s*(SELECT.*)`:
leftmost start, lazy first body, then the greedy repetition tail.  Returns
(first name, last repetition name if any, main query from `SELECT`). -/
def searchLooseF : Nat → List Char → Option (List Char × Option (List Char) × List Char)
  | 0, _ => none
  | _ + 1, [] => none
  | f + 1, c :: cs =>
    match matchWithHead (c :: cs) with
    | some (nm, afterParen) =>
      match firstSome ((closeSplitsF afterParen.length afterParen).map (fun p =>
          match tailRepsF (p.2.length + 1) p.2 with
          | some (last?, main) => some (nm, last?, main)
          | none => none)) with
      | some res => some res
      | none => searchLooseF f cs
    | none => searchLooseF f cs

/-- Search the whole input for the looser multi-CTE pattern. -/
def searchLoose (cs : List Char) : Option (List Char × Option (List Char) × List Char) :=
  searchLooseF cs.length cs

/-- `re.search(r'(WITH\s+\w+\s+AS\s*\(.*?\))\s*(SELECT.*)', sql, I|S)`, the
defensive re-match every synthesizer performs: returns the whole WITH clause
(head, lazy body and closing paren, exactly as it appears in the input) and
the main `SELECT` that follows it. -/
def searchWithSplitF : Nat → List Char → Option (List Char × List Char)
  | 0, _ => none
  | _ + 1, [] => none
  | f + 1, c :: cs =>
    match matchWithHead (c :: cs) with
    | some (_, afterParen) =>
      match findCloseSelectF afterParen.length afterParen with
      | some (body, main) =>
        some ((c :: cs).take ((c :: cs).length - afterParen.length + body.length + 1), main)
      | none => searchWithSplitF f cs
    | none => searchWithSplitF f cs

/-- Search the whole input for the WITH-clause split pattern. -/
def searchWithSplit (cs : List Char) : Option (List Char × List Char) :=
  searchWithSplitF cs.length cs

/-- Match `\s+FROM\s+` at the current position (both runs greedy, each followed
by a character disjoint from the class, hence deterministic); return the rest. -/
def matchWsFromWs (cs : List Char) : Option (List Char) :=
  match matchWs1 cs with
  | none => none
  | some r1 =>
    match matchLitCI ("FROM".data) r1 with
    | none => none
    | some r2 => matchWs1 r2

/-- Lazy search for `(.*?)\s+FROM\s+` from the current position: shortest
captured group first; return the group and the rest after the trailing
whitespace run. -/
def findFromTailF : Nat → List Char → Option (List Char × List Char)
  | 0, _ => none
  | f + 1, cs =>
    match matchWsFromWs cs with
    | some rest => some ([], rest)
    | none =>
      match cs with
      | [] => none
      | c :: cs' => (findFromTailF f cs').map (fun p => (c :: p.1, p.2))

/-- Backtracking over the first `\s+` of `SELECT\s+(.*?)\s+FROM\s+`: the run is
greedy, so the longest split is tried first; on failure, whitespace characters
are moved one at a time from the run into the start of the lazy group (the run
must keep at least one character).  `keptRev` is the reversed run currently
assigned to `\s+`; `start` is where the lazy group search begins. -/
def selectFromWsF : Nat → List Char → List Char → Option (List Char × List Char)
  | 0, _, _ => none
  | f + 1, keptRev, start =>
    match findFromTailF start.length start with
    | some gr => some gr
    | none =>
      match keptRev with
      | [] => none
      | [_] => none
      | c :: rest => selectFromWsF f rest (c :: start)

/-- Match `SELECT\s+(.*?)\s+FROM\s+` (IGNORECASE, DOTALL) at the current
position; return the captured group and the rest after the match. -/
def matchSelectFromAt (cs : List Char) : Option (List Char × List Char) :=
  match matchLitCI ("SELECT".data) cs with
  | none => none
  | some r1 =>
    let wsRun := r1.takeWhile isPySpace
    let tail := r1.dropWhile isPySpace
    if wsRun.isEmpty then none
    else selectFromWsF (wsRun.length + 1) wsRun.reverse tail

/-- `re.sub(r'SELECT\s+(.*?)\s+FROM\s+', repl, sql, I|S)`: replace every
non-overlapping leftmost match, where `repl` builds the replacement text from
the captured group. -/
def subSelectFromF (repl : List Char → List Char) : Nat → List Char → List Char
  | 0, cs => cs
  | _ + 1, [] => []
  | f + 1, c :: cs =>
    match matchSelectFromAt (c :: cs) with
    | some (g, rest) => repl g ++ subSelectFromF repl f rest
    | none => c :: subSelectFromF repl f cs

/-- Apply the `SELECT ... FROM` substitution to a whole string. -/
def subSelectFrom (repl : List Char → List Char) (s : String) : String :=
  String.mk (subSelectFromF repl s.data.length s.data)

/-- Match `WHERE\s+(.*)` (IGNORECASE, no DOTALL) at the current position: the
literal, a greedy whitespace run, then the rest of the line (`.` stops at a
newline).  Always succeeds once `WHERE` is followed by whitespace. -/
def matchWhereAt (cs : List Char) : Option (List Char × List Char) :=
  match matchLitCI ("WHERE".data) cs with
  | none => none
  | some r1 =>
    match matchWs1 r1 with
    | none => none
    | some r2 =>
      some (r2.takeWhile (fun c => c ≠ '\n'), r2.dropWhile (fun c => c ≠ '\n'))

/-- `re.sub(r'WHERE\s+(.*)', rf'WHERE \1 AND SystemDate BETWEEN '{s}' AND '{e}'', sql, I)`
from `apply_systemdate_range`: each match is replaced, keeping the captured
rest-of-line and appending the range condition. -/
def subWhereAndF (startS endS : String) : Nat → List Char → List Char
  | 0, cs => cs
  | _ + 1, [] => []
  | f + 1, c :: cs =>
    match matchWhereAt (c :: cs) with
    | some (g, rest) =>
      ("WHERE ".data) ++ g ++ (" AND SystemDate BETWEEN '".data) ++ startS.data
        ++ ("' AND '".data) ++ endS.data ++ ("'".data) ++ subWhereAndF startS endS f rest
    | none => c :: subWhereAndF startS endS f cs

/-- Apply the WHERE-range substitution to a whole string. -/
def subWhereAnd (startS endS : String) (s : String) : String :=
  String.mk (subWhereAndF startS endS s.data.length s.data)

/-- Result of `_analyze_with_structure` (query_processor.py lines 43-122). -/
structure CteAnalysis where
  has_with : Bool
  cte_count : Nat
  cte_names : List String
  main_query : String
  is_complex : Bool
  deriving DecidableEq, Repr

/-- `QueryProcessor._analyze_with_structure` (query_processor.py lines 43-122).
The multi-CTE branch mirrors the source's `try`: when `cte_matches` is empty
the `cte_matches[-1]` access raises IndexError, the handler resets
`is_complex` to False, and the names appended before the failure (none, since
the loop appended one name per match) are kept. -/
def analyze_with_structure (sql : String) : CteAnalysis :=
  let withMatches := scanWithHeads sql.data
  if withMatches.isEmpty then
    { has_with := false, cte_count := 0, cte_names := [], main_query := "", is_complex := false }
  else if 1 < withMatches.length then
    match (scanCtes sql.data).getLast? with
    | some lastM =>
      { has_with := true, cte_count := withMatches.length,
        cte_names := (scanCtes sql.data).map (fun m => String.mk m.1),
        main_query := pyStrip (String.mk lastM.2),
        is_complex := true }
    | none =>
      { has_with := true, cte_count := withMatches.length, cte_names := [],
        main_query := "", is_complex := false }
  else
    match searchSingleCte sql.data with
    | some (nm, _, mainq) =>
      { has_with := true, cte_count := withMatches.length, cte_names := [String.mk nm],
        main_query := String.mk mainq, is_complex := false }
    | none =>
      match searchLoose sql.data with
      | some (nm, lastRep, mainq) =>
        { has_with := true, cte_count := withMatches.length,
          cte_names := [String.mk nm] ++
            (match lastRep with | some n2 => [String.mk n2] | none => []),
          main_query :=
            (if mainq.isEmpty then
              (match lastRep with | some n2 => String.mk n2 | none => "")
             else String.mk mainq),
          is_complex := lastRep.isSome }
      | none =>
        { has_with := true, cte_count := withMatches.length, cte_names := [],
          main_query := "", is_complex := false }

/-- Modelled from the spec: `core.models.QueryConfig` is not under `src/`; its
fields are the spec's QueryDefinition fields, which are exactly the
constructor arguments used in `process_query_with_systemdate_range`
(query_processor.py lines 678-687). -/
structure QueryConfig where
  name : String
  description : String
  sql : String
  timestamp_column : Option String
  primary_key : String
  target_table : String
  is_incremental : Bool
  order_by_column : String
  deriving DecidableEq, Repr

/-- Python truthiness of an optional string (`None` and `""` are falsy). -/
def pyTruthy : Option String → Bool
  | none => false
  | some s => !s.isEmpty

/-- `QueryProcessor._get_limit_clause` (query_processor.py lines 281-286). -/
def get_limit_clause (database_type : String) : String :=
  if database_type = "mysql" then "LIMIT 1" else "TOP 1"

/-- `QueryProcessor._adjust_parameter_placeholder` (query_processor.py lines
288-291): returns the SQL unchanged. -/
def adjust_parameter_placeholder (sql : String) (_database_type : String) : String := sql

/-- `QueryProcessor._get_column_quote` (query_processor.py lines 293-298). -/
def get_column_quote (database_type : String) : String :=
  if database_type = "mysql" then "`" else "["

/-- `QueryProcessor._get_column_quote_close` (query_processor.py lines 300-305). -/
def get_column_quote_close (database_type : String) : String :=
  if database_type = "mysql" then "`" else "]"

/-- One projected column `{quote}{h}{quote_close}` of the batch form. -/
def quoteCol (database_type : String) (h : String) : String :=
  get_column_quote database_type ++ h ++ get_column_quote_close database_type

/-- `", ".join([f'{quote}{h}{quote_close}' for h in headers])`
(query_processor.py line 446). -/
def selectColumnsOf (database_type : String) (headers : List String) : String :=
  String.intercalate ", " (headers.map (quoteCol database_type))

/-- The row-window predicate text `rn > {offset} AND rn <= {offset + batch_size}`
that every batch branch interpolates. -/
def rnPredicate (offset batch_size : Nat) : String :=
  "rn > " ++ Nat.repr offset ++ " AND rn <= " ++ Nat.repr (offset + batch_size)

/-- Semantic reading of the predicate `rn > offset AND rn <= offset + batch_size`:
the set of row numbers a batch at `offset` of size `batch_size` selects. -/
def rnSelected (offset batch_size rn : Nat) : Prop :=
  offset < rn ∧ rn ≤ offset + batch_size

/-- `QueryProcessor._create_with_count_query` (query_processor.py lines 124-160). -/
def create_with_count_query (sql : String) (_database_type : String) : String :=
  let analysis := analyze_with_structure sql
  if !analysis.has_with then
    "SELECT COUNT(*) as record_count FROM " ++ paren sql ++ " as subquery"
  else
    match searchWithSplit sql.data with
    | some (wc, ms) =>
      "\n            " ++ String.mk wc ++
        "\n            SELECT COUNT(*) as record_count FROM " ++ paren (String.mk ms) ++
        " as subquery\n            "
    | none =>
      subSelectFrom (fun _ => ("SELECT COUNT(*) as record_count FROM ".data)) sql

/-- `QueryProcessor._create_with_header_query` (query_processor.py lines 162-219). -/
def create_with_header_query (sql : String) (database_type : String)
    (limit_clause : String) : String :=
  let analysis := analyze_with_structure sql
  if !analysis.has_with then
    (if database_type = "mysql" then
      "SELECT * FROM " ++ paren sql ++ " as subquery " ++ limit_clause
     else
      "SELECT " ++ limit_clause ++ " * FROM " ++ paren sql ++ " as subquery")
  else
    match searchWithSplit sql.data with
    | some (wc, ms) =>
      (if database_type = "mysql" then
        "\n                " ++ String.mk wc ++ "\n                SELECT * FROM " ++
          paren (String.mk ms) ++ " as subquery " ++ limit_clause ++ "\n                "
       else
        "\n                " ++ String.mk wc ++ "\n                SELECT " ++ limit_clause ++
          " * FROM " ++ paren (String.mk ms) ++ " as subquery\n                ")
    | none =>
      (if database_type = "mysql" then
        subSelectFrom (fun g => ("SELECT ".data) ++ g ++ (" FROM ".data)) sql ++
          " " ++ limit_clause
       else
        subSelectFrom
          (fun g => ("SELECT ".data) ++ limit_clause.data ++ (" ".data) ++ g ++ (" FROM ".data))
          sql)

/-- Batch SQL of the no-WITH branch (query_processor.py lines 227-241 and
459-474; the `mysql` and SQL Server branches produce the identical text). -/
def batchNoWith (select_columns order_column sql : String) (offset batch_size : Nat) : String :=
  "\n                " ++ "SELECT " ++ select_columns ++ " FROM" ++
    " (\n                    SELECT *, ROW_NUMBER() OVER (ORDER BY " ++ order_column ++
    " ASC) as rn \n                    FROM " ++ paren sql ++
    " as subquery\n                ) as numbered \n                WHERE " ++
    rnPredicate offset batch_size ++ "\n                "

/-- `QueryProcessor._create_with_batch_query` (query_processor.py lines 221-279). -/
def create_with_batch_query (sql _database_type select_columns order_column : String)
    (offset batch_size : Nat) : String :=
  let analysis := analyze_with_structure sql
  if !analysis.has_with then
    batchNoWith select_columns order_column sql offset batch_size
  else
    match searchWithSplit sql.data with
    | some (wc, ms) =>
      "\n            " ++ String.mk wc ++ "\n            " ++ "SELECT " ++ select_columns ++
        " FROM" ++ " (\n                SELECT *, ROW_NUMBER() OVER (ORDER BY " ++
        order_column ++ " ASC) as rn \n                FROM " ++ paren (String.mk ms) ++
        " as subquery\n            ) as numbered \n            WHERE " ++
        rnPredicate offset batch_size ++ "\n            "
    | none =>
      let batch_sql :=
        subSelectFrom
          (fun g => ("SELECT ".data) ++ g ++ (", ROW_NUMBER() OVER (ORDER BY ".data) ++
            order_column.data ++ (" ASC) as rn FROM ".data))
          sql
      "\n            " ++ "SELECT " ++ select_columns ++ " FROM" ++ " (" ++ batch_sql ++
        ") as numbered \n            WHERE " ++ rnPredicate offset batch_size ++
        "\n            "

/-- `QueryProcessor.create_batch_query` (query_processor.py lines 439-476).
The database type, which the source looks up from configuration via
`_get_database_type`, is passed as a parameter. -/
def create_batch_query (qc : QueryConfig) (database_type : String)
    (batch_size offset : Nat) (headers : List String) : String :=
  let adjusted_sql := adjust_parameter_placeholder qc.sql database_type
  let select_columns := selectColumnsOf database_type headers
  let order_column := qc.order_by_column
  let analysis := analyze_with_structure qc.sql
  if analysis.has_with then
    create_with_batch_query adjusted_sql database_type select_columns order_column
      offset batch_size
  else
    batchNoWith select_columns order_column adjusted_sql offset batch_size

/-- The `systemdate` dictionary consumed by `apply_systemdate_range`
(`enabled`, optional `start_date`, optional `end_date`). -/
structure SystemdateConfig where
  enabled : Bool
  start_date : Option String
  end_date : Option String
  deriving DecidableEq, Repr

/-- Start of the range: configured `start_date` if truthy, else `last_run_time`
if truthy, else the epoch-like floor (query_processor.py lines 630-635). -/
def systemdateStart (cfg : SystemdateConfig) (last_run_time : Option String) : String :=
  if pyTruthy cfg.start_date then cfg.start_date.getD ""
  else if pyTruthy last_run_time then last_run_time.getD ""
  else "1900-01-01 00:00:00"

/-- End of the range: configured `end_date` if truthy, else the current JST
time, passed in as `now_str` since `datetime.now` is impure
(query_processor.py lines 637-642). -/
def systemdateEnd (cfg : SystemdateConfig) (now_str : String) : String :=
  if pyTruthy cfg.end_date then cfg.end_date.getD "" else now_str

/-- `QueryProcessor.apply_systemdate_range` (query_processor.py lines 610-663).
The body's `try` handler is unreachable in this pure model (no string
operation raises), so it is not represented. -/
def apply_systemdate_range (sql : String) (cfg : SystemdateConfig)
    (last_run_time : Option String) (now_str : String) : String :=
  if !cfg.enabled then sql
  else
    let start_date_str := systemdateStart cfg last_run_time
    let end_date_str := systemdateEnd cfg now_str
    if strInB "WHERE" (pyUpper sql) then
      if strInB ":last_run_time" sql then
        pyReplace sql ":last_run_time" ("'" ++ start_date_str ++ "'")
      else
        subWhereAnd start_date_str end_date_str sql
    else
      sql ++ " WHERE SystemDate BETWEEN '" ++ start_date_str ++ "' AND '" ++
        end_date_str ++ "'"

/-- `QueryProcessor.process_query_with_systemdate_range` (query_processor.py
lines 665-702): build a fresh QueryConfig with the same fields, then patch
only the copy's `sql` when the query is incremental with a truthy timestamp
column.  The `except` handler is unreachable in this pure model. -/
def process_query_with_systemdate_range (qc : QueryConfig) (cfg : SystemdateConfig)
    (last_run_time : Option String) (now_str : String) : QueryConfig :=
  let modified : QueryConfig :=
    { name := qc.name
      description := qc.description
      sql := qc.sql
      timestamp_column := qc.timestamp_column
      primary_key := qc.primary_key
      target_table := qc.target_table
      is_incremental := qc.is_incremental
      order_by_column := qc.order_by_column }
  if qc.is_incremental && pyTruthy qc.timestamp_column then
    { modified with sql := apply_systemdate_range qc.sql cfg last_run_time now_str }
  else modified

/-- Behaviour of the connection during `_get_record_count_with_fallback`: for
each call (numbered in program order) and SQL text, either an exception
(`none`) or a result set, modelled as the list of first-column values of the
fetched rows (`none` cells are SQL NULLs). -/
def ConnOracle : Type := Nat → String → Option (List (Option Int))

/-- SQLAlchemy `result.scalar()`: first column of the first row, `None` when
the result has no rows (the source treats a NULL scalar and an empty result
identically via `is not None`). -/
def scalarOf : List (Option Int) → Option Int
  | [] => none
  | v :: _ => v

/-- The existence-probe SQL of `_get_record_count_with_fallback`
(query_processor.py lines 505-512). -/
def fallbackTestSql (qc : QueryConfig) (database_type : String) : String :=
  let adjusted_sql := adjust_parameter_placeholder qc.sql database_type
  let limit_clause := get_limit_clause database_type
  if (analyze_with_structure qc.sql).has_with then
    create_with_header_query adjusted_sql database_type limit_clause
  else if database_type = "mysql" then
    "SELECT * FROM " ++ paren adjusted_sql ++ " as subquery " ++ limit_clause
  else
    "SELECT " ++ limit_clause ++ " * FROM " ++ paren adjusted_sql ++ " as subquery"

/-- The structural count SQL used by both count attempts of the fallback
(query_processor.py lines 531 and 564). -/
def fallbackCountSql (qc : QueryConfig) (database_type : String) : String :=
  create_with_count_query (adjust_parameter_placeholder qc.sql database_type) database_type

/-- The widened 1000-row probe SQL of the fallback (query_processor.py lines
548-551). -/
def fallbackTestCountSql (qc : QueryConfig) (database_type : String) : String :=
  let adjusted_sql := adjust_parameter_placeholder qc.sql database_type
  if (analyze_with_structure qc.sql).has_with then
    create_with_header_query adjusted_sql database_type "TOP 1000"
  else
    "SELECT TOP 1000 * FROM " ++ paren adjusted_sql ++ " as subquery"

/-- Second half of `_get_record_count_with_fallback` (query_processor.py lines
545-581): the widened probe and second count attempt, both inside `try`
blocks whose handlers fall through, ending at the sentinel `return 1`. -/
def fallbackSecondStage (conn : ConnOracle) (qc : QueryConfig) (database_type : String) : Int :=
  match conn 2 (fallbackTestCountSql qc database_type) with
  | none => 1
  | some test_rows =>
    if test_rows.isEmpty then 1
    else
      match conn 3 (fallbackCountSql qc database_type) with
      | none => 1
      | some rows2 =>
        match scalarOf rows2 with
        | some record_count => record_count
        | none => 1

/-- `QueryProcessor._get_record_count_with_fallback` (query_processor.py lines
491-588).  Calls are numbered in program order: 0 the existence probe, 1 the
first structural count, 2 the widened probe, 3 the second structural count.
An oracle answer of `none` is a raised exception; the probe's exception
reaches the outer handler (return 0), the others are caught by the inner
handlers and fall through.  The `last_run_time` parameter binding is folded
into the oracle.  The function is total: no exception escapes it. -/
def get_record_count_with_fallback (conn : ConnOracle) (qc : QueryConfig)
    (database_type : String) : Int :=
  match conn 0 (fallbackTestSql qc database_type) with
  | none => 0
  | some probe_rows =>
    if probe_rows.isEmpty then 0
    else
      match conn 1 (fallbackCountSql qc database_type) with
      | none => fallbackSecondStage conn qc database_type
      | some rows1 =>
        match scalarOf rows1 with
        | some record_count => record_count
        | none => fallbackSecondStage conn qc database_type

/-- The JST offset (+9 hours) in seconds, `timezone(timedelta(hours=9))`. -/
def jstOffsetSeconds : Int := 9 * 3600

/-- Python `datetime`: the displayed wall-clock instant in seconds together
with the attached UTC offset in seconds (`none` for a naive timestamp). -/
structure PyDateTime where
  wall : Int
  tzOffset : Option Int
  deriving DecidableEq, Repr

/-- `dt.replace(tzinfo=JST)`: keep the wall-clock fields, tag with JST. -/
def replaceTzinfoJST (d : PyDateTime) : PyDateTime :=
  { d with tzOffset := some jstOffsetSeconds }

/-- `dt.astimezone(JST)` for an aware timestamp: convert to the same instant
expressed in JST.  (A naive timestamp is returned unchanged; the source never
calls this on a naive value.) -/
def astimezoneJST (d : PyDateTime) : PyDateTime :=
  match d.tzOffset with
  | some o => { wall := d.wall - o + jstOffsetSeconds, tzOffset := some jstOffsetSeconds }
  | none => d

/-- A scalar returned by `SELECT MAX(SystemDate) FROM HistoryMainline`: the
driver yields either a datetime or a string. -/
inductive SqlScalar where
  | dt (d : PyDateTime)
  | str (s : String)
  deriving DecidableEq

/-- `QueryProcessor.get_max_system_date` (query_processor.py lines 590-608).
`execMax` is the outcome of the aggregate query (`Except.error` when the
engine or the execution raises); `fromisoformat` models
`datetime.fromisoformat`, with `none` for a ValueError, which the outer
handler catches.  Every exception is converted to `none`. -/
def get_max_system_date (execMax : Except Unit (Option SqlScalar))
    (fromisoformat : String → Option PyDateTime) : Option PyDateTime :=
  match execMax with
  | .error _ => none
  | .ok none => none
  | .ok (some (.dt d)) => some d
  | .ok (some (.str s)) =>
    match fromisoformat s with
    | some d => some d
    | none => none

/-- Tail of `DataProcessor.process_all_queries` (data_processor.py lines
271-287): normalize the max SystemDate to JST (tag a naive value, convert an
aware one) or fall back to the current JST time. -/
def computeUpdateRunTime (max_system_date : Option PyDateTime)
    (current_run_time : PyDateTime) : PyDateTime :=
  match max_system_date with
  | some d => if d.tzOffset = none then replaceTzinfoJST d else astimezoneJST d
  | none => current_run_time

/-- Outcome of one iteration of the `try` block in `_process_batches`
(data_processor.py lines 147-184): the fetched row count and uploaded byte
count on success (`ok 0 _` is an empty fetch, which breaks the loop), a
non-CsvGenerationException raised by `execute_batch`, a
non-CsvGenerationException raised after the fetch (CSV/upload), or a
CsvGenerationException raised inside the try (re-raised). -/
inductive BatchStep where
  | ok (rows bytes : Nat)
  | execRaise
  | uploadRaise (rows : Nat)
  | csvRaise
  deriving DecidableEq

/-- `ProcessingResult` (constructed in data_processor.py lines 189-195). -/
structure ProcessingResult where
  query_name : String
  batch_count : Nat
  row_count : Nat
  total_size_bytes : Nat
  total_size_formatted : String
  deriving DecidableEq, Repr

/-- The `while True` loop of `_process_batches` (data_processor.py lines
142-184).  `gate i` is `check_execution_apply()` before iteration `i`
(False raises CsvGenerationException, modelled as `.error`); `step i` is the
iteration's try-block outcome.  `fuel` bounds the unrolling (the Python loop
is unbounded); `none` means the bound was exhausted.  Accumulators follow the
source: `batch_number` is incremented right after a non-empty fetch, rows and
bytes after the upload. -/
def processBatchesLoop (gate : Nat → Bool) (step : Nat → BatchStep) :
    Nat → Nat → Nat → Nat → Nat → Option (Except Unit (Nat × Nat × Nat))
  | 0, _, _, _, _ => none
  | fuel + 1, i, batch_number, processed_rows, total_size =>
    if !gate i then some (.error ())
    else
      match step i with
      | .csvRaise => some (.error ())
      | .execRaise => some (.ok (batch_number, processed_rows, total_size))
      | .uploadRaise _ => some (.ok (batch_number + 1, processed_rows, total_size))
      | .ok rows bytes =>
        if rows = 0 then some (.ok (batch_number, processed_rows, total_size))
        else
          processBatchesLoop gate step fuel (i + 1) (batch_number + 1)
            (processed_rows + rows) (total_size + bytes)

/-- `DataProcessor._process_batches` (data_processor.py lines 123-195): run the
loop from zeroed accumulators and package the `ProcessingResult`.  `fmt`
models the `CSVProcessor.format_file_size` collaborator (its module is not
under `src/`). -/
def process_batches (gate : Nat → Bool) (step : Nat → BatchStep) (fuel : Nat)
    (query_name : String) (fmt : Nat → String) : Option (Except Unit ProcessingResult) :=
  match processBatchesLoop gate step fuel 0 0 0 0 with
  | none => none
  | some (.error e) => some (.error e)
  | some (.ok (b, r, s)) =>
    some (.ok { query_name := query_name, batch_count := b, row_count := r,
                total_size_bytes := s, total_size_formatted := fmt s })

/-- Sum of `f i, f (i+1), ..., f (i+k-1)`: the rows/bytes accumulated by `k`
successful batches starting at iteration `i`. -/
def sumFrom (f : Nat → Nat) : Nat → Nat → Nat
  | _, 0 => 0
  | i, k + 1 => f i + sumFrom f (i + 1) k

/-- Sample query configuration used by concrete instantiations: a plain
no-WITH query. -/
def qcSample : QueryConfig :=
  { name := "q1", description := "sample", sql := "SELECT a, b FROM T",
    timestamp_column := some "SystemDate", primary_key := "a", target_table := "T",
    is_incremental := true, order_by_column := "a" }

/-- Sample SQL whose two CTEs are introduced by the comma syntax
`WITH X AS (...), Y AS (...)`: only the first is preceded by the word WITH. -/
def sqlCommaCtes : String := "WITH X AS (SELECT 1), Y AS (SELECT 2) SELECT * FROM Y"

/-- Sample SQL containing two full `WITH name AS (` heads. -/
def sqlTwoHeads : String := "with a as (x) with b as (y) select 1"

/-- Connection oracle whose existence probe returns one row and whose every
other call raises. -/
def connProbeOnly : ConnOracle := fun _ s =>
  if s = fallbackTestSql qcSample "mssql" then some [some 1] else none

/-- Gate that always permits execution. -/
def gateAlways : Nat → Bool := fun _ => true

/-- Batch-step oracle: one successful 2-row, 10-byte batch, then a failing
`execute_batch`. -/
def stepOneThenFail : Nat → BatchStep := fun i =>
  if i = 0 then .ok 2 10 else .execRaise

/-- Byte-size formatter stand-in for the CSV collaborator. -/
def fmtBytes : Nat → String := fun n => Nat.repr n ++ " B"

/-- A `fromisoformat` model that fails on every string. -/
def fisoNone : String → Option PyDateTime := fun _ => none

/-- `needle` occurs verbatim as a contiguous substring of `hay`. -/
def containsStr (hay needle : String) : Prop := needle.data <:+: hay.data

theorem strData_append (a b : String) : (a ++ b).data = a.data ++ b.data := by
  cases a; cases b; rfl

theorem containsStr_parts {hay needle : String} (p q : List Char)
    (h : p ++ needle.data ++ q = hay.data) : containsStr hay needle := ⟨p, q, h⟩

set_option maxRecDepth 16000

/-- C1: for every batch size > 0 and offset ≥ 0, the SQL produced by
`create_batch_query` contains, in every branch (no-WITH, WITH-hoisted and
textual fallback), the row-window predicate
`rn > offset AND rn <= offset + batch_size` with those exact bounds; the
row-number windows of two consecutive batches at `offset` and
`offset + batch_size` are disjoint and jointly cover rows `offset + 1`
through `offset + 2 * batch_size`. -/
theorem c1_batch_window (qc : QueryConfig) (dbt : String) (batch_size offset : Nat)
    (headers : List String) (hpos : 0 < batch_size) :
    containsStr (create_batch_query qc dbt batch_size offset headers)
        (rnPredicate offset batch_size) ∧
    (∀ rn, ¬(rnSelected offset batch_size rn ∧
             rnSelected (offset + batch_size) batch_size rn)) ∧
    (∀ rn, (offset < rn ∧ rn ≤ offset + 2 * batch_size) ↔
      (rnSelected offset batch_size rn ∨ rnSelected (offset + batch_size) batch_size rn)) := by
  refine ⟨?_, ?_, ?_⟩
  · unfold create_batch_query
    cases hw : (analyze_with_structure qc.sql).has_with with
    | false =>
      simp only [hw, Bool.false_eq_true, if_false, adjust_parameter_placeholder]
      unfold batchNoWith
      refine containsStr_parts (("\n                " ++ "SELECT " ++
        selectColumnsOf dbt headers ++ " FROM" ++
        " (\n                    SELECT *, ROW_NUMBER() OVER (ORDER BY " ++
        qc.order_by_column ++ " ASC) as rn \n                    FROM " ++ paren qc.sql ++
        " as subquery\n                ) as numbered \n                WHERE ").data)
        (("\n                ").data) ?_
      simp only [strData_append, List.append_assoc]
    | true =>
      simp only [hw, if_true, adjust_parameter_placeholder]
      unfold create_with_batch_query
      simp only [adjust_parameter_placeholder, hw, Bool.not_true, Bool.false_eq_true, if_false]
      cases hsw : searchWithSplit qc.sql.data with
      | some p =>
        obtain ⟨wc, ms⟩ := p
        simp only [hsw]
        refine containsStr_parts (("\n            " ++ String.mk wc ++ "\n            " ++
          "SELECT " ++ selectColumnsOf dbt headers ++ " FROM" ++
          " (\n                SELECT *, ROW_NUMBER() OVER (ORDER BY " ++
          qc.order_by_column ++ " ASC) as rn \n                FROM " ++
          paren (String.mk ms) ++
          " as subquery\n            ) as numbered \n            WHERE ").data)
          (("\n            ").data) ?_
        simp only [strData_append, List.append_assoc]
      | none =>
        simp only [hsw]
        refine containsStr_parts (("\n            " ++ "SELECT " ++
          selectColumnsOf dbt headers ++ " FROM" ++ " (" ++
          subSelectFrom (fun g => ("SELECT ".data) ++ g ++
            (", ROW_NUMBER() OVER (ORDER BY ".data) ++
            qc.order_by_column.data ++ (" ASC) as rn FROM ".data)) qc.sql ++
          ") as numbered \n            WHERE ").data)
          (("\n            ").data) ?_
        simp only [strData_append, List.append_assoc]
  · intro rn h
    simp only [rnSelected] at h
    omega
  · intro rn
    simp only [rnSelected]
    omega

/-- C1 witness: the theorem instantiated at a concrete query, batch size 3 and
offset 0, with its positivity hypothesis discharged. -/
theorem c1_batch_window_witness :
    0 < 3 ∧
    (containsStr (create_batch_query qcSample "mssql" 3 0 ["a"]) (rnPredicate 0 3) ∧
     (∀ rn, ¬(rnSelected 0 3 rn ∧ rnSelected (0 + 3) 3 rn)) ∧
     (∀ rn, (0 < rn ∧ rn ≤ 0 + 2 * 3) ↔
        (rnSelected 0 3 rn ∨ rnSelected (0 + 3) 3 rn))) :=
  ⟨by decide, c1_batch_window qcSample "mssql" 3 0 ["a"] (by decide)⟩

/-- C3: for every SQL input without a WITH clause, the count form
(`_create_with_count_query`), the header-probe form
(`_create_with_header_query`, either dialect) and the batch form
(`create_batch_query`) each contain the original SQL text verbatim and
unchanged inside a parenthesized subquery. -/
theorem c3_no_with_verbatim (qc : QueryConfig) (dbt limit_clause : String)
    (batch_size offset : Nat) (headers : List String)
    (hnw : (analyze_with_structure qc.sql).has_with = false) :
    containsStr (create_with_count_query qc.sql dbt) (paren qc.sql) ∧
    containsStr (create_with_header_query qc.sql dbt limit_clause) (paren qc.sql) ∧
    containsStr (create_batch_query qc dbt batch_size offset headers) (paren qc.sql) := by
  refine ⟨?_, ?_, ?_⟩
  · unfold create_with_count_query
    simp only [hnw, Bool.not_false, if_true]
    exact containsStr_parts (("SELECT COUNT(*) as record_count FROM ").data)
      ((" as subquery").data) (by simp only [strData_append, List.append_assoc])
  · unfold create_with_header_query
    simp only [hnw, Bool.not_false, if_true]
    by_cases hdb : dbt = "mysql"
    · rw [if_pos hdb]
      exact containsStr_parts (("SELECT * FROM ").data)
        ((" as subquery " ++ limit_clause).data)
        (by simp only [strData_append, List.append_assoc])
    · rw [if_neg hdb]
      exact containsStr_parts (("SELECT " ++ limit_clause ++ " * FROM ").data)
        ((" as subquery").data)
        (by simp only [strData_append, List.append_assoc])
  · unfold create_batch_query
    simp only [hnw, Bool.false_eq_true, if_false, adjust_parameter_placeholder]
    unfold batchNoWith
    refine containsStr_parts (("\n                " ++ "SELECT " ++
      selectColumnsOf dbt headers ++ " FROM" ++
      " (\n                    SELECT *, ROW_NUMBER() OVER (ORDER BY " ++
      qc.order_by_column ++ " ASC) as rn \n                    FROM ").data)
      ((" as subquery\n                ) as numbered \n                WHERE " ++
        rnPredicate offset batch_size ++ "\n                ").data) ?_
    simp only [strData_append, List.append_assoc]

/-- C3 witness: the theorem instantiated at a concrete WITH-free query, with
the no-WITH hypothesis discharged by evaluation. -/
theorem c3_no_with_verbatim_witness :
    (analyze_with_structure qcSample.sql).has_with = false ∧
    (containsStr (create_with_count_query qcSample.sql "mssql") (paren qcSample.sql) ∧
     containsStr (create_with_header_query qcSample.sql "mssql" "TOP 1") (paren qcSample.sql) ∧
     containsStr (create_batch_query qcSample "mssql" 5 0 ["a", "b"]) (paren qcSample.sql)) :=
  ⟨by decide, c3_no_with_verbatim qcSample "mssql" "TOP 1" 5 0 ["a", "b"] (by decide)⟩

/-- Helper: the per-dialect column quoting is injective in the column name. -/
theorem quoteColInj {dbt a b : String} (h : quoteCol dbt a = quoteCol dbt b) : a = b := by
  have hd := congrArg String.data h
  simp only [quoteCol, strData_append, List.append_assoc] at hd
  have h1 := List.append_cancel_left hd
  have h2 := List.append_cancel_right h1
  cases a; cases b; exact congrArg String.mk h2

/-- C8 counterexample: the claim quantifies over every supplied header list,
but when the caller supplies a header literally named `rn`, the projected
column list of the batch SQL does contain the quoted column `rn`
(`[rn]` in the SQL Server dialect), so the projection is not `rn`-free. -/
theorem c8_projection_counterexample :
    quoteCol "mssql" "rn" ∈ (["rn"].map (quoteCol "mssql")) ∧
    selectColumnsOf "mssql" ["rn"] = "[rn]" ∧
    containsStr (create_batch_query qcSample "mssql" 5 0 ["rn"])
      ("SELECT [rn] FROM") := by
  refine ⟨by decide, by decide, ?_⟩
  unfold containsStr
  decide

/-- C8 amended: for every header list, the outer projection of the batch SQL
is exactly the supplied headers, each quoted per dialect (the synthetic
row-number column is never added to it); hence whenever no supplied header is
itself named `rn`, no projected column is the quoted `rn`. -/
theorem c8_projection_amended (qc : QueryConfig) (dbt : String)
    (batch_size offset : Nat) (headers : List String) (hrn : "rn" ∉ headers) :
    (∀ c ∈ headers.map (quoteCol dbt), c ≠ quoteCol dbt "rn") ∧
    containsStr (create_batch_query qc dbt batch_size offset headers)
      ("SELECT " ++ selectColumnsOf dbt headers ++ " FROM") := by
  constructor
  · intro c hc heq
    obtain ⟨h, hh, rfl⟩ := List.mem_map.mp hc
    exact hrn (quoteColInj heq ▸ hh)
  · unfold create_batch_query
    cases hw : (analyze_with_structure qc.sql).has_with with
    | false =>
      simp only [hw, Bool.false_eq_true, if_false, adjust_parameter_placeholder]
      unfold batchNoWith
      refine containsStr_parts (("\n                ").data)
        ((" (\n                    SELECT *, ROW_NUMBER() OVER (ORDER BY " ++
          qc.order_by_column ++ " ASC) as rn \n                    FROM " ++ paren qc.sql ++
          " as subquery\n                ) as numbered \n                WHERE " ++
          rnPredicate offset batch_size ++ "\n                ").data) ?_
      simp only [strData_append, List.append_assoc]
    | true =>
      simp only [hw, if_true, adjust_parameter_placeholder]
      unfold create_with_batch_query
      simp only [adjust_parameter_placeholder, hw, Bool.not_true, Bool.false_eq_true, if_false]
      cases hsw : searchWithSplit qc.sql.data with
      | some p =>
        obtain ⟨wc, ms⟩ := p
        simp only [hsw]
        refine containsStr_parts (("\n            " ++ String.mk wc ++ "\n            ").data)
          ((" (\n                SELECT *, ROW_NUMBER() OVER (ORDER BY " ++
            qc.order_by_column ++ " ASC) as rn \n                FROM " ++
            paren (String.mk ms) ++
            " as subquery\n            ) as numbered \n            WHERE " ++
            rnPredicate offset batch_size ++ "\n            ").data) ?_
        simp only [strData_append, List.append_assoc]
      | none =>
        simp only [hsw]
        refine containsStr_parts (("\n            ").data)
          ((" (" ++
            subSelectFrom (fun g => ("SELECT ".data) ++ g ++
              (", ROW_NUMBER() OVER (ORDER BY ".data) ++
              qc.order_by_column.data ++ (" ASC) as rn FROM ".data)) qc.sql ++
            ") as numbered \n            WHERE " ++ rnPredicate offset batch_size ++
            "\n            ").data) ?_
        simp only [strData_append, List.append_assoc]

/-- C8 witness: the amended theorem at a concrete header list without `rn`. -/
theorem c8_projection_amended_witness :
    ("rn" ∉ ["a", "b"]) ∧
    ((∀ c ∈ ["a", "b"].map (quoteCol "mssql"), c ≠ quoteCol "mssql" "rn") ∧
     containsStr (create_batch_query qcSample "mssql" 5 0 ["a", "b"])
       ("SELECT " ++ selectColumnsOf "mssql" ["a", "b"] ++ " FROM")) :=
  ⟨by decide, c8_projection_amended qcSample "mssql" 5 0 ["a", "b"] (by decide)⟩

/-- C2 counterexample: `'WITH X AS (SELECT 1), Y AS (SELECT 2) SELECT * FROM Y'`
has two top-level CTEs (the claim's own example shape), yet the analyzer's
`with_pattern` only matches the first `WITH X AS (`, so the single-CTE branch
runs: the analysis has `is_complex = false`, one CTE name and `cte_count = 1`,
refuting `is_complex = true ∧ cte_names.length = 2` at this input. -/
theorem c2_multi_cte_counterexample :
    (analyze_with_structure sqlCommaCtes).is_complex = false ∧
    (analyze_with_structure sqlCommaCtes).cte_names = ["X"] ∧
    (analyze_with_structure sqlCommaCtes).cte_count = 1 ∧
    ¬((analyze_with_structure sqlCommaCtes).is_complex = true ∧
      (analyze_with_structure sqlCommaCtes).cte_names.length = 2) := by
  refine ⟨by decide, ?_, by decide, by decide⟩
  decide

/-- C2 amended: for every SQL input in which the code's `with_pattern`
`WITH <name> AS (` finds N ≥ 2 non-overlapping matches and the closed
`cte_pattern` `WITH <name> AS ( body )` also finds N matches, the analysis
has `is_complex = true` and exactly N entries in `cte_names`. -/
theorem c2_multi_cte_amended (sql : String) (N : Nat) (h2 : 2 ≤ N)
    (hw : (scanWithHeads sql.data).length = N)
    (hc : (scanCtes sql.data).length = N) :
    (analyze_with_structure sql).is_complex = true ∧
    (analyze_with_structure sql).cte_names.length = N := by
  have hne : (scanWithHeads sql.data).isEmpty = false := by
    cases hsw : scanWithHeads sql.data with
    | nil => rw [hsw] at hw; simp at hw; omega
    | cons a l => rfl
  have hnil : scanCtes sql.data ≠ [] := by
    intro hcm
    rw [hcm] at hc
    simp at hc
    omega
  unfold analyze_with_structure
  simp only [hne, Bool.false_eq_true, if_false, hw]
  rw [if_pos (by omega)]
  cases hgl : (scanCtes sql.data).getLast? with
  | none => exact absurd (List.getLast?_eq_none_iff.mp hgl) hnil
  | some lastM =>
    simp only [hgl]
    simp [hc]

/-- C2 witness: the amended theorem at an input with two full
`WITH name AS (` heads, both hypotheses discharged by evaluation. -/
theorem c2_multi_cte_amended_witness :
    2 ≤ 2 ∧ (scanWithHeads sqlTwoHeads.data).length = 2 ∧
    (scanCtes sqlTwoHeads.data).length = 2 ∧
    ((analyze_with_structure sqlTwoHeads).is_complex = true ∧
     (analyze_with_structure sqlTwoHeads).cte_names.length = 2) :=
  ⟨by decide, by decide, by decide,
   c2_multi_cte_amended sqlTwoHeads 2 (by decide) (by decide) (by decide)⟩

/-- C4: `_get_record_count_with_fallback` never lets a connection failure
escape: for every behaviour of the connection, (i) a raised existence probe
yields 0, (ii) a probe with no rows yields 0, (iii) a successful probe with a
row followed by structural count attempts that all raise or return a NULL
scalar yields the sentinel 1, and (iv) the result is always 0, 1, or a scalar
actually returned by some count call -- never a propagated exception. -/
theorem c4_fallback_count (conn : ConnOracle) (qc : QueryConfig) (dbt : String) :
    (conn 0 (fallbackTestSql qc dbt) = none →
      get_record_count_with_fallback conn qc dbt = 0) ∧
    (conn 0 (fallbackTestSql qc dbt) = some [] →
      get_record_count_with_fallback conn qc dbt = 0) ∧
    ((∃ r rs, conn 0 (fallbackTestSql qc dbt) = some (r :: rs)) →
     (∀ k, conn k (fallbackCountSql qc dbt) = none ∨
        ∃ rows, conn k (fallbackCountSql qc dbt) = some rows ∧ scalarOf rows = none) →
      get_record_count_with_fallback conn qc dbt = 1) ∧
    (get_record_count_with_fallback conn qc dbt = 0 ∨
     get_record_count_with_fallback conn qc dbt = 1 ∨
     ∃ k rows rc, conn k (fallbackCountSql qc dbt) = some rows ∧
       scalarOf rows = some rc ∧ get_record_count_with_fallback conn qc dbt = rc) := by
  have hsecond : ∀ (_ : ∀ k, conn k (fallbackCountSql qc dbt) = none ∨
        ∃ rows, conn k (fallbackCountSql qc dbt) = some rows ∧ scalarOf rows = none),
      fallbackSecondStage conn qc dbt = 1 := by
    intro hcnt
    unfold fallbackSecondStage
    split
    · rfl
    next test_rows h2 =>
      split
      · rfl
      · split
        · rfl
        next rows2 h3 =>
          split
          next rc hsc =>
            rcases hcnt 3 with h | ⟨rows', h', hs'⟩
            · rw [h] at h3; cases h3
            · rw [h'] at h3
              cases h3
              rw [hs'] at hsc
              cases hsc
          · rfl
  have hstage : fallbackSecondStage conn qc dbt = 1 ∨
      ∃ k rows rc, conn k (fallbackCountSql qc dbt) = some rows ∧
        scalarOf rows = some rc ∧ fallbackSecondStage conn qc dbt = rc := by
    unfold fallbackSecondStage
    split
    · exact Or.inl rfl
    next test_rows h2 =>
      split
      · exact Or.inl rfl
      · split
        · exact Or.inl rfl
        next rows2 h3 =>
          split
          next rc hsc => exact Or.inr ⟨3, rows2, rc, h3, hsc, rfl⟩
          · exact Or.inl rfl
  refine ⟨?_, ?_, ?_, ?_⟩
  · intro h
    unfold get_record_count_with_fallback
    rw [h]
  · intro h
    unfold get_record_count_with_fallback
    rw [h]
    simp
  · rintro ⟨r, rs, h0⟩ hcnt
    unfold get_record_count_with_fallback
    rw [h0]
    simp only [List.isEmpty_cons, Bool.false_eq_true, if_false]
    rcases hcnt 1 with h1 | ⟨rows, h1, hs⟩
    · rw [h1]
      exact hsecond hcnt
    · rw [h1]
      simp only [hs]
      exact hsecond hcnt
  · unfold get_record_count_with_fallback
    split
    · exact Or.inl rfl
    next probe_rows h0 =>
      split
      · exact Or.inl (by simp_all)
      next hne =>
        split
        · rcases hstage with h | ⟨k, rows, rc, hk, hsc, hst⟩
          · exact Or.inr (Or.inl h)
          · exact Or.inr (Or.inr ⟨k, rows, rc, hk, hsc, hst⟩)
        next rows1 h1 =>
          split
          next rc hsc => exact Or.inr (Or.inr ⟨1, rows1, rc, h1, hsc, rfl⟩)
          · rcases hstage with h | ⟨k, rows, rc, hk, hsc, hst⟩
            · exact Or.inr (Or.inl h)
            · exact Or.inr (Or.inr ⟨k, rows, rc, hk, hsc, hst⟩)

/-- C4 witness: a connection whose probe succeeds with one row and whose every
other call raises; the fallback returns the sentinel 1. -/
theorem c4_fallback_count_witness :
    connProbeOnly 0 (fallbackTestSql qcSample "mssql") = some [some 1] ∧
    get_record_count_with_fallback connProbeOnly qcSample "mssql" = 1 :=
  ⟨by decide,
   (c4_fallback_count connProbeOnly qcSample "mssql").2.2.1
     ⟨some 1, [], by decide⟩
     (fun k => Or.inl (by
       show connProbeOnly k (fallbackCountSql qcSample "mssql") = none
       unfold connProbeOnly
       rw [if_neg (by decide)]))⟩

/-- C9: `process_query_with_systemdate_range` builds a fresh copy of the
QueryConfig; in this pure model the original value is immutable by
construction, and the returned copy agrees with the original on every field
except `sql`, which carries the date-range substitution exactly when the
query is incremental with a truthy timestamp column. -/
theorem c9_clone_frame (qc : QueryConfig) (cfg : SystemdateConfig)
    (lastRunTime : Option String) (nowStr : String) :
    (process_query_with_systemdate_range qc cfg lastRunTime nowStr).name = qc.name ∧
    (process_query_with_systemdate_range qc cfg lastRunTime nowStr).description = qc.description ∧
    (process_query_with_systemdate_range qc cfg lastRunTime nowStr).timestamp_column = qc.timestamp_column ∧
    (process_query_with_systemdate_range qc cfg lastRunTime nowStr).primary_key = qc.primary_key ∧
    (process_query_with_systemdate_range qc cfg lastRunTime nowStr).target_table = qc.target_table ∧
    (process_query_with_systemdate_range qc cfg lastRunTime nowStr).is_incremental = qc.is_incremental ∧
    (process_query_with_systemdate_range qc cfg lastRunTime nowStr).order_by_column = qc.order_by_column ∧
    (process_query_with_systemdate_range qc cfg lastRunTime nowStr).sql =
      (if qc.is_incremental && pyTruthy qc.timestamp_column then
        apply_systemdate_range qc.sql cfg lastRunTime nowStr
       else qc.sql) := by
  by_cases h : (qc.is_incremental && pyTruthy qc.timestamp_column) = true
  · simp [process_query_with_systemdate_range, h]
  · simp only [Bool.not_eq_true] at h
    simp [process_query_with_systemdate_range, h]


/-- Helper for C6: running the loop over `k` gate-approved, successful,
non-empty batches advances the iteration index and accumulators by the summed
rows and bytes. -/
theorem processBatchesLoopShift (gate : Nat → Bool) (step : Nat → BatchStep)
    (rows bytes : Nat → Nat) :
    ∀ (k i fuel bn pr ts : Nat), k < fuel →
    (∀ j, j < k → gate (i + j) = true) →
    (∀ j, j < k → step (i + j) = .ok (rows (i + j)) (bytes (i + j)) ∧ 0 < rows (i + j)) →
    processBatchesLoop gate step fuel i bn pr ts =
      processBatchesLoop gate step (fuel - k) (i + k) (bn + k)
        (pr + sumFrom rows i k) (ts + sumFrom bytes i k) := by
  intro k
  induction k with
  | zero => intro i fuel bn pr ts hf hg hs; simp [sumFrom]
  | succ k ih =>
    intro i fuel bn pr ts hf hg hs
    cases fuel with
    | zero => omega
    | succ f =>
      have hg0 : gate i = true := by simpa using hg 0 (by omega)
      have hs0 : step i = .ok (rows i) (bytes i) ∧ 0 < rows i := by simpa using hs 0 (by omega)
      have hstep : processBatchesLoop gate step (f + 1) i bn pr ts =
          processBatchesLoop gate step f (i + 1) (bn + 1) (pr + rows i) (ts + bytes i) := by
        simp only [processBatchesLoop, hg0, Bool.not_true, Bool.false_eq_true, if_false,
          hs0.1]
        rw [if_neg (by omega)]
      have hg' : ∀ j, j < k → gate (i + 1 + j) = true := by
        intro j hj
        have h := hg (j + 1) (by omega)
        rw [show i + 1 + j = i + (j + 1) by omega]
        exact h
      have hs' : ∀ j, j < k → step (i + 1 + j) = .ok (rows (i + 1 + j)) (bytes (i + 1 + j)) ∧
          0 < rows (i + 1 + j) := by
        intro j hj
        have h := hs (j + 1) (by omega)
        rw [show i + 1 + j = i + (j + 1) by omega]
        exact h
      rw [hstep, ih (i + 1) f (bn + 1) (pr + rows i) (ts + bytes i) (by omega) hg' hs']
      congr 1 <;> try omega
      · simp [sumFrom]; omega
      · simp [sumFrom]; omega


/-- C6: with `k` successful non-empty batches behind it, (i) a permission-gate
denial at iteration `k` raises (CsvGenerationException propagates),
(ii) a non-Csv `execute_batch` failure at iteration `k` stops the loop and
still yields a ProcessingResult carrying the `k` batches and the summed rows
and bytes accumulated before the failure, (iii) a CsvGenerationException
inside the try block is re-raised, and (iv) a non-Csv failure in a later
per-batch step (CSV encoding or upload, after the fetch) also stops the loop
and yields a ProcessingResult with the accumulators as they stand at the
failure: `batch_number` was already incremented for the fetched batch, so the
result carries `k + 1` batches and the rows and bytes of the `k` completed
batches. -/
theorem c6_batch_loop_errors (gate : Nat → Bool) (step : Nat → BatchStep)
    (rows bytes : Nat → Nat) (k fuel : Nat) (query_name : String) (fmt : Nat → String)
    (hf : k < fuel)
    (hg : ∀ j, j < k → gate j = true)
    (hs : ∀ j, j < k → step j = .ok (rows j) (bytes j) ∧ 0 < rows j) :
    (gate k = false → process_batches gate step fuel query_name fmt = some (.error ())) ∧
    (gate k = true → step k = .execRaise →
      process_batches gate step fuel query_name fmt =
        some (.ok { query_name := query_name, batch_count := k,
                    row_count := sumFrom rows 0 k, total_size_bytes := sumFrom bytes 0 k,
                    total_size_formatted := fmt (sumFrom bytes 0 k) })) ∧
    (gate k = true → step k = .csvRaise →
      process_batches gate step fuel query_name fmt = some (.error ())) ∧
    (∀ m, gate k = true → step k = .uploadRaise m →
      process_batches gate step fuel query_name fmt =
        some (.ok { query_name := query_name, batch_count := k + 1,
                    row_count := sumFrom rows 0 k, total_size_bytes := sumFrom bytes 0 k,
                    total_size_formatted := fmt (sumFrom bytes 0 k) })) := by
  have hshift := processBatchesLoopShift gate step rows bytes k 0 fuel 0 0 0 hf
    (by intro j hj; simpa using hg j hj)
    (by intro j hj; simpa using hs j hj)
  simp only [Nat.zero_add] at hshift
  obtain ⟨m, hm⟩ : ∃ m, fuel - k = m + 1 := ⟨fuel - k - 1, by omega⟩
  rw [hm] at hshift
  refine ⟨fun hgk => ?_, fun hgk hsk => ?_, fun hgk hsk => ?_, fun m hgk hsk => ?_⟩
  · unfold process_batches
    rw [hshift]
    simp [processBatchesLoop, hgk]
  · unfold process_batches
    rw [hshift]
    simp [processBatchesLoop, hgk, hsk]
  · unfold process_batches
    rw [hshift]
    simp [processBatchesLoop, hgk, hsk]
  · unfold process_batches
    rw [hshift]
    simp [processBatchesLoop, hgk, hsk]

/-- C6 witness: one successful 2-row batch, then an `execute_batch` failure;
the result carries the accumulated batch, rows and bytes. -/
theorem c6_batch_loop_errors_witness :
    gateAlways 1 = true ∧ stepOneThenFail 1 = .execRaise ∧
    process_batches gateAlways stepOneThenFail 3 "q" fmtBytes =
      some (.ok { query_name := "q", batch_count := 1,
                  row_count := sumFrom (fun _ => 2) 0 1,
                  total_size_bytes := sumFrom (fun _ => 10) 0 1,
                  total_size_formatted := fmtBytes (sumFrom (fun _ => 10) 0 1) }) :=
  ⟨rfl, rfl,
   (c6_batch_loop_errors gateAlways stepOneThenFail (fun _ => 2) (fun _ => 10) 1 3 "q" fmtBytes
      (by decide)
      (fun _ _ => rfl)
      (fun j _hj => by
        have hj0 : j = 0 := by omega
        subst hj0
        exact ⟨rfl, by decide⟩)).2.1 rfl rfl⟩

/-- C7: the end-of-run watermark equals the max SystemDate normalized to the
fixed JST zone -- a naive timestamp is tagged as already being JST (its
wall-clock fields unchanged), an aware timestamp is converted into JST -- and
when the maximum is unavailable the watermark is the caller's current JST
time.  All paths, including the naive one, are total functions: nothing
raises. -/
theorem c7_watermark_normalization (execMax : Except Unit (Option SqlScalar))
    (fiso : String → Option PyDateTime) (d : PyDateTime) (o : Int) (nowJst : PyDateTime) :
    (get_max_system_date execMax fiso = none →
      computeUpdateRunTime (get_max_system_date execMax fiso) nowJst = nowJst) ∧
    (execMax = .ok (some (.dt d)) → d.tzOffset = none →
      computeUpdateRunTime (get_max_system_date execMax fiso) nowJst =
        { wall := d.wall, tzOffset := some jstOffsetSeconds }) ∧
    (execMax = .ok (some (.dt d)) → d.tzOffset = some o →
      computeUpdateRunTime (get_max_system_date execMax fiso) nowJst =
        { wall := d.wall - o + jstOffsetSeconds, tzOffset := some jstOffsetSeconds }) := by
  refine ⟨fun h => by rw [h]; rfl, fun he ht => ?_, fun he ht => ?_⟩
  · subst he
    simp [get_max_system_date, computeUpdateRunTime, ht, replaceTzinfoJST]
  · subst he
    simp [get_max_system_date, computeUpdateRunTime, ht, astimezoneJST]

/-- C7 witness: a naive max SystemDate is tagged as JST without raising. -/
theorem c7_watermark_normalization_witness :
    ((Except.ok (some (SqlScalar.dt ⟨100, none⟩)) : Except Unit (Option SqlScalar)) =
      Except.ok (some (SqlScalar.dt ⟨100, none⟩))) ∧
    computeUpdateRunTime
        (get_max_system_date (.ok (some (.dt ⟨100, none⟩))) fisoNone)
        ⟨0, some jstOffsetSeconds⟩ =
      { wall := 100, tzOffset := some jstOffsetSeconds } :=
  ⟨rfl,
   (c7_watermark_normalization (.ok (some (.dt ⟨100, none⟩))) fisoNone ⟨100, none⟩ 0
      ⟨0, some jstOffsetSeconds⟩).2.1 rfl rfl⟩

/-- C10: `get_max_system_date` converts every failure to `None` -- an
execution error, an empty aggregate, and an unparseable string timestamp all
yield `None` -- and the caller's watermark computation then silently falls
back to the current time. -/
theorem c10_max_system_date_none (fiso : String → Option PyDateTime) (s : String)
    (nowJst : PyDateTime) :
    get_max_system_date (.error ()) fiso = none ∧
    get_max_system_date (.ok none) fiso = none ∧
    (fiso s = none → get_max_system_date (.ok (some (.str s))) fiso = none) ∧
    computeUpdateRunTime (get_max_system_date (.error ()) fiso) nowJst = nowJst := by
  refine ⟨rfl, rfl, fun h => ?_, rfl⟩
  simp [get_max_system_date, h]

/-- C10 witness: an unparseable string scalar yields `None`. -/
theorem c10_max_system_date_none_witness :
    fisoNone "not-a-timestamp" = none ∧
    get_max_system_date (.ok (some (.str "not-a-timestamp"))) fisoNone = none :=
  ⟨rfl,
   (c10_max_system_date_none fisoNone "not-a-timestamp" ⟨0, some jstOffsetSeconds⟩).2.2.1 rfl⟩
